import Mathlib

set_option maxHeartbeats 1000000

/-!
Shallow embedding of `cli/ops/fetch.rs` (the Deno fetch / create_http_client
ops).  External crates (`http`, `url`, `reqwest`, `deno_core`) appear only
through the interfaces fetch.rs consumes: they are collected in `HttpEnv`,
`State` and `ResourceTable` below.  The control flow of `op_fetch` and
`op_create_http_client` is translated line by line; Rust panics (the
`data.len()` arity check and the four `.unwrap()` calls) are modelled by an
explicit `OpOutcome.panic` constructor, distinct from errors returned to the
caller.
-/

namespace DenoFetch

/-- HTTP method token, as produced by `Method::from_bytes` of the http crate. -/
abbrev Method := String

/-- Parsed absolute URL, as produced by `url::Url::parse`; fetch.rs inspects
only the scheme, so the remainder of the URL is kept opaque. -/
structure Url where
  scheme : String
  rest : String
deriving DecidableEq

/-- A configured `reqwest::Client`; its internals are opaque to fetch.rs. -/
structure HttpClient where
  id : Nat
deriving DecidableEq

/-- A resource stored in the deno_core resource table, as far as fetch.rs can
distinguish them: an `HttpClientResource` (fetch.rs line 122) or one of the
`StreamResourceHolder` resources such as the httpBody streams inserted by the
fetch future (fetch.rs lines 102-107). -/
inductive Resource
  | httpClient : HttpClient → Resource
  | streamHolder : Resource
deriving DecidableEq

/-- The deno_core `ResourceTable` interface consumed by fetch.rs: named
resources keyed by resource id, plus the monotonically increasing next id. -/
structure ResourceTable where
  entries : List (Nat × String × Resource)
  nextRid : Nat
deriving DecidableEq

/-- `ResourceTable::add`: insert a named resource, returning the fresh rid and
bumping the counter. -/
def ResourceTable.add (t : ResourceTable) (name : String) (r : Resource) :
    Nat × ResourceTable :=
  (t.nextRid, ⟨t.entries ++ [(t.nextRid, name, r)], t.nextRid + 1⟩)

/-- Type-checked lookup `ResourceTable::get::<HttpClientResource>`: returns
none when the rid is absent or names a resource of a different type. -/
def ResourceTable.getHttpClient (t : ResourceTable) (rid : Nat) :
    Option HttpClient :=
  match t.entries.find? (fun e => e.1 == rid) with
  | some (_, _, Resource.httpClient c) => some c
  | _ => none

/-- The pieces of `crate::state::State` used by fetch.rs: the process default
http client (`state.http_client`) and the permission checks `check_net_url`
and `check_read`, modelled as boolean policies. -/
structure State where
  http_client : HttpClient
  netAllowed : Url → Bool
  readAllowed : String → Bool

/-- Behaviour of the external library calls fetch.rs makes, kept abstract:
each field models one fallible call of the http / url / reqwest crates or of
`crate::http_util::create_http_client`. -/
structure HttpEnv where
  methodFromBytes : String → Option Method
  urlParse : String → Option Url
  headerNameOk : String → Bool
  headerValueOk : String → Bool
  headerValueToStr : List Nat → Option String
  canonicalReason : Nat → Option String
  createHttpClient : Option String → Option HttpClient

/-- The `ErrBox` errors the two ops can return to the caller. -/
inductive ErrKind
  | badResource
  | invalidMethod
  | urlParseError
  | typeError : String → ErrKind
  | permissionDenied
  | networkError
deriving DecidableEq

/-- Result of running a fragment of op code: a value, an `ErrBox` returned to
the caller, or a Rust panic that aborts the process. -/
inductive OpOutcome (α : Type)
  | ok : α → OpOutcome α
  | err : ErrKind → OpOutcome α
  | panic : String → OpOutcome α
deriving DecidableEq

/-- True exactly when the outcome is a process-aborting panic. -/
def OpOutcome.isPanic {α : Type} : OpOutcome α → Bool
  | .panic _ => true
  | _ => false

/-- `FetchArgs` (fetch.rs lines 27-34). -/
structure FetchArgs where
  method : Option String
  url : String
  headers : List (String × String)
  client_rid : Option Nat
deriving DecidableEq

/-- The `reqwest::RequestBuilder` state accumulated by `op_fetch` before the
request is sent: bound client, method, url, optional body, headers. -/
structure FetchRequest where
  client : HttpClient
  method : Method
  url : Url
  body : Option (List Nat)
  headers : List (String × String)
deriving DecidableEq

/-- The json payload the fetch future resolves with (fetch.rs lines 109-114). -/
structure FetchResultPayload where
  bodyRid : Nat
  status : Nat
  statusText : String
  headers : List (String × String)
deriving DecidableEq

/-- An HTTP response as the fetch future sees it: status code and response
headers, whose values are raw byte strings (`http::HeaderValue`). -/
structure Response where
  status : Nat
  headers : List (String × List Nat)
deriving DecidableEq

/-- Client selection (fetch.rs lines 46-55): a type-checked registry lookup
when `client_rid` is present, the process default client otherwise. -/
def resolveClient (state : State) (table : ResourceTable)
    (rid? : Option Nat) : Option HttpClient :=
  match rid? with
  | some rid => table.getHttpClient rid
  | none => some state.http_client

/-- Method resolution (fetch.rs lines 57-60): parse the supplied token with
`Method::from_bytes`, defaulting to GET when absent. -/
def resolveMethod (env : HttpEnv) (m? : Option String) : Option Method :=
  match m? with
  | some s => env.methodFromBytes s
  | none => some "GET"

/-- The synchronous validation sequence of `op_fetch` up to but excluding the
net permission check (fetch.rs lines 44-71), in source order: client lookup,
method parse, url parse, scheme check. -/
def fetch_precheck (env : HttpEnv) (state : State) (table : ResourceTable)
    (args : FetchArgs) : OpOutcome (HttpClient × Method × Url) :=
  match resolveClient state table args.client_rid with
  | none => .err .badResource
  | some client =>
    match resolveMethod env args.method with
    | none => .err .invalidMethod
    | some m =>
      match env.urlParse args.url with
      | none => .err .urlParseError
      | some u =>
        if u.scheme ≠ "http" ∧ u.scheme ≠ "https" then
          .err (.typeError ("scheme \x27" ++ u.scheme ++ "\x27 not supported"))
        else
          .ok (client, m, u)

/-- The request header loop (fetch.rs lines 83-87): every header name and
value is constructed with `.unwrap()`, so an invalid token panics instead of
producing a returned error. -/
def addHeaders (env : HttpEnv) (req : FetchRequest) :
    List (String × String) → OpOutcome FetchRequest
  | [] => .ok req
  | (k, v) :: rest =>
    if env.headerNameOk k then
      if env.headerValueOk v then
        addHeaders env { req with headers := req.headers ++ [(k, v)] } rest
      else
        .panic "called Result::unwrap on an Err value: InvalidHeaderValue"
    else
      .panic "called Result::unwrap on an Err value: InvalidHeaderName"

/-- Outcome of the synchronous phase of `op_fetch`, paired with whether
`state.check_net_url` was invoked during the call. -/
structure FetchSyncResult where
  outcome : OpOutcome FetchRequest
  netChecked : Bool
deriving DecidableEq

/-- `op_fetch` (fetch.rs lines 36-120), synchronous phase: validation, the
net permission gate, body attachment (line 80 panics on more than one body
chunk) and header construction, producing the request the spawned future
sends.  `netChecked` records whether `check_net_url` was reached. -/
def op_fetch (env : HttpEnv) (state : State) (table : ResourceTable)
    (args : FetchArgs) (data : List (List Nat)) : FetchSyncResult :=
  match fetch_precheck env state table args with
  | .err e => ⟨.err e, false⟩
  | .panic msg => ⟨.panic msg, false⟩
  | .ok (client, m, u) =>
    if state.netAllowed u then
      let request : FetchRequest := ⟨client, m, u, none, []⟩
      match data with
      | [] => ⟨addHeaders env request args.headers, true⟩
      | [b] => ⟨addHeaders env { request with body := some b } args.headers, true⟩
      | _ => ⟨.panic "Invalid number of arguments", true⟩
    else
      ⟨.err .permissionDenied, true⟩

/-- The response header loop of the fetch future (fetch.rs lines 95-98):
`val.to_str().unwrap()` panics on a header value that does not decode. -/
def collectHeaders (env : HttpEnv) :
    List (String × List Nat) → OpOutcome (List (String × String))
  | [] => .ok []
  | (k, v) :: rest =>
    match env.headerValueToStr v with
    | none => .panic "called Result::unwrap on an Err value: ToStrError"
    | some s =>
      match collectHeaders env rest with
      | .ok t => .ok ((k, s) :: t)
      | .err e => .err e
      | .panic msg => .panic msg

/-- Body of the async fetch future (fetch.rs lines 91-117): a transport
failure of `request.send().await` is propagated by `?`; otherwise response
headers are collected, exactly one httpBody stream resource is inserted, and
the result payload is built from status, canonical reason and headers.
`sendResult` is the transport outcome: none models a send/await error. -/
def fetch_task (env : HttpEnv) (table : ResourceTable)
    (sendResult : Option Response) :
    OpOutcome FetchResultPayload × ResourceTable :=
  match sendResult with
  | none => (.err .networkError, table)
  | some res =>
    match collectHeaders env res.headers with
    | .panic msg => (.panic msg, table)
    | .err e => (.err e, table)
    | .ok hdrs =>
      let (rid, table2) := table.add "httpBody" Resource.streamHolder
      (.ok ⟨rid, res.status, (env.canonicalReason res.status).getD "", hdrs⟩,
        table2)

/-- `CreateHttpClientOptions` (fetch.rs lines 132-137). -/
structure CreateHttpClientOptions where
  ca_file : Option String
deriving DecidableEq

/-- `op_create_http_client` (fetch.rs lines 139-157): optional read
permission check on `ca_file`, then `create_http_client(..).unwrap()` — a
construction failure panics (line 152) — then insertion of the httpClient
resource, returning its fresh rid synchronously. -/
def op_create_http_client (env : HttpEnv) (state : State)
    (table : ResourceTable) (args : CreateHttpClientOptions) :
    OpOutcome Nat × ResourceTable :=
  let build : OpOutcome Nat × ResourceTable :=
    match env.createHttpClient args.ca_file with
    | none => (.panic "called Result::unwrap on an Err value", table)
    | some c =>
      let (rid, table2) := table.add "httpClient" (Resource.httpClient c)
      (.ok rid, table2)
  match args.ca_file with
  | some ca =>
    if state.readAllowed ca then build else (.err .permissionDenied, table)
  | none => build

/-- Concrete default client used by the example instantiations below. -/
def sampleClient : HttpClient := ⟨0⟩

/-- Concrete permissive state for example instantiations. -/
def sampleState : State := ⟨sampleClient, fun _ => true, fun _ => true⟩

/-- Concrete state whose policy denies every read and net access. -/
def denyState : State := ⟨sampleClient, fun _ => false, fun _ => false⟩

/-- Concrete instantiation of the external library behaviour, used to
evaluate the ops on closed inputs. -/
def sampleEnv : HttpEnv where
  methodFromBytes := fun s => if s == "GET" || s == "POST" then some s else none
  urlParse := fun s =>
    if s == "https://example.com/" then some ⟨"https", "//example.com/"⟩
    else if s == "gopher://x" then some ⟨"gopher", "//x"⟩
    else none
  headerNameOk := fun s => !(s == "bad name")
  headerValueOk := fun _ => true
  headerValueToStr := fun bs =>
    if bs.all (fun b => decide (b < 128)) then some "v" else none
  canonicalReason := fun n => if n == 404 then some "Not Found" else none
  createHttpClient := fun ca => if ca == some "bad.pem" then none else some ⟨1⟩

/-- Concrete table holding one stream resource at rid 0; its next rid is 1. -/
def sampleTable : ResourceTable := ⟨[(0, "httpBody", Resource.streamHolder)], 1⟩

/-- Helper: when client lookup, method parse and url parse succeed and the
scheme is http or https, the precheck returns the resolved triple. -/
theorem fetch_precheck_ok (env : HttpEnv) (state : State)
    (table : ResourceTable) (args : FetchArgs) (c : HttpClient) (m : Method)
    (u : Url) (hc : resolveClient state table args.client_rid = some c)
    (hm : resolveMethod env args.method = some m)
    (hu : env.urlParse args.url = some u)
    (hsch : u.scheme = "http" ∨ u.scheme = "https") :
    fetch_precheck env state table args = .ok (c, m, u) := by
  unfold fetch_precheck
  rw [hc, hm, hu]
  rcases hsch with h | h <;> simp [h]

/-- Helper: the request header loop panics whenever some supplied pair has an
invalid name or value. -/
theorem addHeaders_panic_of_invalid (env : HttpEnv) (req : FetchRequest)
    (pairs : List (String × String))
    (hbad : ∃ kv ∈ pairs,
      env.headerNameOk kv.1 = false ∨ env.headerValueOk kv.2 = false) :
    (addHeaders env req pairs).isPanic = true := by
  induction pairs generalizing req with
  | nil => rcases hbad with ⟨kv, hmem, _⟩; cases hmem
  | cons head tail ih =>
    obtain ⟨kv, hmem, hkv⟩ := hbad
    rcases List.mem_cons.mp hmem with rfl | hmem
    · rcases hkv with h | h
      · simp [addHeaders, h, OpOutcome.isPanic]
      · cases hn : env.headerNameOk kv.1 <;>
          simp [addHeaders, hn, h, OpOutcome.isPanic]
    · cases hn : env.headerNameOk head.1 with
      | false => simp [addHeaders, hn, OpOutcome.isPanic]
      | true =>
        cases hv : env.headerValueOk head.2 with
        | false => simp [addHeaders, hn, hv, OpOutcome.isPanic]
        | true =>
          have := ih ({ req with headers := req.headers ++ [head] } :
            FetchRequest) ⟨kv, hmem, hkv⟩
          simpa [addHeaders, hn, hv] using this

/-- C1 counterexample: a fetch call carrying two request body chunks, with
every other argument valid and the permission granted, panics with Invalid
number of arguments (a process abort) instead of returning a typed
malformed-input error to the caller. -/
theorem op_fetch_two_chunks_panics_cex :
    op_fetch sampleEnv sampleState sampleTable
      ⟨some "GET", "https://example.com/", [], none⟩ [[1], [2]]
      = ⟨.panic "Invalid number of arguments", true⟩ := by decide

/-- C1 (amended): for every fetch call that passes client resolution, method
and url validation, the scheme check and the net permission gate but supplies
more than one request body chunk, op_fetch panics with Invalid number of
arguments — a process abort — rather than returning a typed error, and in
particular never concatenates the chunks into a request body. -/
theorem op_fetch_multi_chunk_panic (env : HttpEnv) (state : State)
    (table : ResourceTable) (args : FetchArgs) (data : List (List Nat))
    (c : HttpClient) (m : Method) (u : Url)
    (hc : resolveClient state table args.client_rid = some c)
    (hm : resolveMethod env args.method = some m)
    (hu : env.urlParse args.url = some u)
    (hsch : u.scheme = "http" ∨ u.scheme = "https")
    (hnet : state.netAllowed u = true)
    (hd : 2 ≤ data.length) :
    op_fetch env state table args data
      = ⟨.panic "Invalid number of arguments", true⟩ := by
  have hpre := fetch_precheck_ok env state table args c m u hc hm hu hsch
  match data, hd with
  | b1 :: b2 :: rest, _ => simp [op_fetch, hpre, hnet]

/-- C1 witness: the amended statement at a concrete three-chunk call. -/
theorem op_fetch_multi_chunk_panic_witness :
    op_fetch sampleEnv sampleState sampleTable
      ⟨none, "https://example.com/", [], none⟩ [[0], [1], [2]]
      = ⟨.panic "Invalid number of arguments", true⟩ :=
  op_fetch_multi_chunk_panic sampleEnv sampleState sampleTable
    ⟨none, "https://example.com/", [], none⟩ [[0], [1], [2]]
    sampleClient "GET" ⟨"https", "//example.com/"⟩
    (by decide) (by decide) (by decide) (Or.inr rfl) rfl (by decide)

/-- C2 counterexample: a fetch call whose header list contains a header name
that is not valid per the HTTP header grammar panics inside the unwrap of
HeaderName construction instead of returning a malformed-header error. -/
theorem op_fetch_bad_header_cex :
    op_fetch sampleEnv sampleState sampleTable
      ⟨none, "https://example.com/", [("bad name", "v")], none⟩ []
      = ⟨.panic "called Result::unwrap on an Err value: InvalidHeaderName",
         true⟩ := by decide

/-- C2 (amended): for every fetch call that passes client resolution, method
and url validation, the scheme check, the net permission gate and the body
arity check, but whose header list contains a syntactically invalid name or
value, op_fetch panics (the unwraps of fetch.rs lines 84-85 abort the
process) rather than returning a malformed-header error; the invalid pair is
not silently dropped. -/
theorem op_fetch_invalid_header_panic (env : HttpEnv) (state : State)
    (table : ResourceTable) (args : FetchArgs) (data : List (List Nat))
    (c : HttpClient) (m : Method) (u : Url)
    (hc : resolveClient state table args.client_rid = some c)
    (hm : resolveMethod env args.method = some m)
    (hu : env.urlParse args.url = some u)
    (hsch : u.scheme = "http" ∨ u.scheme = "https")
    (hnet : state.netAllowed u = true)
    (hd : data.length ≤ 1)
    (hbad : ∃ kv ∈ args.headers,
      env.headerNameOk kv.1 = false ∨ env.headerValueOk kv.2 = false) :
    (op_fetch env state table args data).outcome.isPanic = true := by
  have hpre := fetch_precheck_ok env state table args c m u hc hm hu hsch
  match data, hd with
  | [], _ =>
    simpa [op_fetch, hpre, hnet] using
      addHeaders_panic_of_invalid env ⟨c, m, u, none, []⟩ args.headers hbad
  | [b], _ =>
    simpa [op_fetch, hpre, hnet] using
      addHeaders_panic_of_invalid env ⟨c, m, u, some b, []⟩ args.headers hbad

/-- C2 witness: the amended statement at a concrete call with an invalid
header name. -/
theorem op_fetch_invalid_header_panic_witness :
    (op_fetch sampleEnv sampleState sampleTable
      ⟨none, "https://example.com/", [("ok", "v"), ("bad name", "v")], none⟩
      []).outcome.isPanic = true :=
  op_fetch_invalid_header_panic sampleEnv sampleState sampleTable
    ⟨none, "https://example.com/", [("ok", "v"), ("bad name", "v")], none⟩ []
    sampleClient "GET" ⟨"https", "//example.com/"⟩
    (by decide) (by decide) (by decide) (Or.inr rfl) rfl (by decide)
    ⟨("bad name", "v"), by decide, Or.inl (by decide)⟩

/-- C3: for every fetch call that passes client resolution and method
validation and whose url parses with a scheme that is neither http nor https,
op_fetch fails with the unsupported-scheme type error and the net permission
gate is never invoked for that call. -/
theorem op_fetch_bad_scheme_no_gate (env : HttpEnv) (state : State)
    (table : ResourceTable) (args : FetchArgs) (data : List (List Nat))
    (c : HttpClient) (m : Method) (u : Url)
    (hc : resolveClient state table args.client_rid = some c)
    (hm : resolveMethod env args.method = some m)
    (hu : env.urlParse args.url = some u)
    (h1 : u.scheme ≠ "http") (h2 : u.scheme ≠ "https") :
    op_fetch env state table args data
      = ⟨.err (.typeError ("scheme \x27" ++ u.scheme ++ "\x27 not supported")),
         false⟩ := by
  have hpre : fetch_precheck env state table args
      = .err (.typeError ("scheme \x27" ++ u.scheme ++ "\x27 not supported")) := by
    unfold fetch_precheck
    rw [hc, hm, hu]
    simp [h1, h2]
  simp [op_fetch, hpre]

/-- C3 witness: a gopher url at a concrete call, with the permission policy
permissive, still fails before the gate. -/
theorem op_fetch_bad_scheme_no_gate_witness :
    op_fetch sampleEnv sampleState sampleTable
      ⟨none, "gopher://x", [], none⟩ []
      = ⟨.err (.typeError "scheme \x27gopher\x27 not supported"), false⟩ :=
  op_fetch_bad_scheme_no_gate sampleEnv sampleState sampleTable
    ⟨none, "gopher://x", [], none⟩ [] sampleClient "GET" ⟨"gopher", "//x"⟩
    (by decide) (by decide) (by decide) (by decide) (by decide)

/-- C4 counterexample: when the trust-anchor material is invalid (client
configuration construction fails) and the read permission was granted,
op_create_http_client panics on the unwrap of fetch.rs line 152 instead of
returning the failure to the caller. -/
theorem op_create_http_client_bad_ca_cex :
    op_create_http_client sampleEnv sampleState sampleTable ⟨some "bad.pem"⟩
      = (.panic "called Result::unwrap on an Err value", sampleTable) := by
  decide

/-- C4 (amended): for every create_http_client call whose caFile passes the
read permission check but whose client configuration construction fails, the
operation panics — a process abort, not an error returned to the caller — and
no client resource is registered. -/
theorem op_create_http_client_config_panic (env : HttpEnv) (state : State)
    (table : ResourceTable) (ca : String)
    (hr : state.readAllowed ca = true)
    (hfail : env.createHttpClient (some ca) = none) :
    op_create_http_client env state table ⟨some ca⟩
      = (.panic "called Result::unwrap on an Err value", table) := by
  simp [op_create_http_client, hr, hfail]

/-- C4 witness: the amended statement at a concrete call on an empty
table. -/
theorem op_create_http_client_config_panic_witness :
    op_create_http_client sampleEnv sampleState ⟨[], 5⟩ ⟨some "bad.pem"⟩
      = (.panic "called Result::unwrap on an Err value", ⟨[], 5⟩) :=
  op_create_http_client_config_panic sampleEnv sampleState ⟨[], 5⟩
    "bad.pem" rfl (by decide)

/-- Helper: the response header loop never yields a returned error; it either
succeeds or panics. -/
theorem collectHeaders_ne_err (env : HttpEnv)
    (l : List (String × List Nat)) (e : ErrKind) :
    collectHeaders env l ≠ .err e := by
  induction l generalizing e with
  | nil => simp [collectHeaders]
  | cons head tail ih =>
    match head with
    | (k, v) =>
      cases hv : env.headerValueToStr v with
      | none => simp [collectHeaders, hv]
      | some s =>
        cases ht : collectHeaders env tail with
        | ok t => simp [collectHeaders, hv, ht]
        | err e2 => exact absurd ht (ih e2)
        | panic msg => simp [collectHeaders, hv, ht]

/-- C5: resource discipline of the fetch future — a run that resolves with a
payload inserts exactly one httpBody stream resource, whose fresh rid is the
payload body handle; a run that ends in a returned error is exactly the
transport-failure case, inserts nothing, and delivers the network error in
place of the payload; a panicking run inserts nothing. -/
theorem fetch_task_resource_discipline (env : HttpEnv)
    (table : ResourceTable) (sr : Option Response) :
    match fetch_task env table sr with
    | (.ok p, t2) =>
        t2.entries
          = table.entries ++ [(table.nextRid, "httpBody", Resource.streamHolder)]
        ∧ t2.nextRid = table.nextRid + 1 ∧ p.bodyRid = table.nextRid
    | (.err e, t2) => t2 = table ∧ e = .networkError ∧ sr = none
    | (.panic _, t2) => t2 = table := by
  match sr with
  | none => simp [fetch_task]
  | some res =>
    cases h : collectHeaders env res.headers with
    | ok hdrs => simp [fetch_task, h, ResourceTable.add]
    | err e => exact absurd h (collectHeaders_ne_err env res.headers e)
    | panic msg => simp [fetch_task, h]

/-- C6: client handle resolution of op_fetch — a supplied client_rid that is
absent from the table or names a resource that is not an http client makes
the whole call fail synchronously with the bad-resource error, whatever the
rest of the arguments (so there is no fallback to the default client); and
when no client_rid is supplied, resolution yields the process default
client. -/
theorem op_fetch_client_handle_resolution (env : HttpEnv) (state : State)
    (table : ResourceTable) (args : FetchArgs) (data : List (List Nat)) :
    (∀ rid, args.client_rid = some rid → table.getHttpClient rid = none →
        op_fetch env state table args data = ⟨.err .badResource, false⟩)
    ∧ (args.client_rid = none →
        resolveClient state table args.client_rid = some state.http_client) := by
  constructor
  · intro rid hrid hget
    have hres : resolveClient state table args.client_rid = none := by
      simp [resolveClient, hrid, hget]
    have hpre : fetch_precheck env state table args = .err .badResource := by
      unfold fetch_precheck
      rw [hres]
    simp [op_fetch, hpre]
  · intro hnone
    simp [resolveClient, hnone]

/-- C6 witness: rid 0 of the sample table holds a stream resource (wrong
type), so a fetch supplying it fails with bad-resource; a fetch without a
client_rid resolves to the default client. -/
theorem op_fetch_client_handle_resolution_witness :
    op_fetch sampleEnv sampleState sampleTable
      ⟨none, "https://example.com/", [], some 0⟩ []
      = ⟨.err .badResource, false⟩
    ∧ resolveClient sampleState sampleTable none
      = some sampleState.http_client :=
  ⟨(op_fetch_client_handle_resolution sampleEnv sampleState sampleTable
      ⟨none, "https://example.com/", [], some 0⟩ []).1 0 rfl (by decide),
   (op_fetch_client_handle_resolution sampleEnv sampleState sampleTable
      ⟨none, "https://example.com/", [], none⟩ []).2 rfl⟩

/-- C7 counterexample: an exchange that completes at the transport level but
carries a response header value that does not decode makes the fetch future
panic instead of producing the successful payload the claim promises for
every completed exchange. -/
theorem fetch_task_undecodable_header_cex :
    (fetch_task sampleEnv sampleTable (some ⟨404, [("x", [200])]⟩)).1
      = .panic "called Result::unwrap on an Err value: ToStrError" := by
  decide

/-- Helper: when every response header value decodes, the header loop
succeeds. -/
theorem collectHeaders_ok_of_decodable (env : HttpEnv)
    (l : List (String × List Nat))
    (h : ∀ kv ∈ l, (env.headerValueToStr kv.2).isSome = true) :
    ∃ hdrs, collectHeaders env l = .ok hdrs := by
  induction l with
  | nil => exact ⟨[], rfl⟩
  | cons head tail ih =>
    have hhead := h head (List.mem_cons_self head tail)
    obtain ⟨s, hs⟩ := Option.isSome_iff_exists.mp hhead
    obtain ⟨t, ht⟩ := ih (fun kv hkv => h kv (List.mem_cons_of_mem head hkv))
    exact ⟨(head.1, s) :: t, by
      match head with
      | (k, v) => simp [collectHeaders, hs, ht]⟩

/-- C7 (amended): for every async fetch exchange that completes at the
transport level and whose response header values all decode, regardless of
the HTTP status code, the task produces a successful payload whose status is
the response status code and whose statusText is the canonical reason phrase,
or the empty string when none is known; no error is produced. -/
theorem fetch_task_status_is_data (env : HttpEnv) (table : ResourceTable)
    (res : Response)
    (hvals : ∀ kv ∈ res.headers, (env.headerValueToStr kv.2).isSome = true) :
    ∃ hdrs, fetch_task env table (some res)
      = (.ok ⟨table.nextRid, res.status,
              (env.canonicalReason res.status).getD "", hdrs⟩,
         ⟨table.entries ++ [(table.nextRid, "httpBody", Resource.streamHolder)],
          table.nextRid + 1⟩) := by
  obtain ⟨hdrs, hh⟩ := collectHeaders_ok_of_decodable env res.headers hvals
  exact ⟨hdrs, by simp [fetch_task, hh, ResourceTable.add]⟩

/-- C7 witness: a completed 404 exchange with one decodable header yields the
payload with status 404 and statusText Not Found. -/
theorem fetch_task_status_is_data_witness :
    ∃ hdrs, fetch_task sampleEnv sampleTable (some ⟨404, [("x", [65])]⟩)
      = (.ok ⟨sampleTable.nextRid, 404, "Not Found", hdrs⟩,
         ⟨sampleTable.entries
            ++ [(sampleTable.nextRid, "httpBody", Resource.streamHolder)],
          sampleTable.nextRid + 1⟩) :=
  fetch_task_status_is_data sampleEnv sampleTable ⟨404, [("x", [65])]⟩
    (by decide)

/-- C8: for every create_http_client call with a caFile for which the read
permission check fails, the operation fails with permission-denied and the
resource table is left unchanged, so no client handle is allocated for that
call. -/
theorem op_create_http_client_permission_denied (env : HttpEnv)
    (state : State) (table : ResourceTable) (ca : String)
    (hr : state.readAllowed ca = false) :
    op_create_http_client env state table ⟨some ca⟩
      = (.err .permissionDenied, table) := by
  simp [op_create_http_client, hr]

/-- C8 witness: a concrete call under the deny-everything policy. -/
theorem op_create_http_client_permission_denied_witness :
    op_create_http_client sampleEnv denyState sampleTable ⟨some "ca.pem"⟩
      = (.err .permissionDenied, sampleTable) :=
  op_create_http_client_permission_denied sampleEnv denyState sampleTable
    "ca.pem" rfl

/-- C9: the client handle lookup of op_fetch precedes method validation and
url parsing — a call that supplies an unresolvable client_rid together with a
malformed method or an unparseable url fails with the bad-resource
(invalid-handle) error, not with a malformed-input error. -/
theorem op_fetch_handle_before_method_url (env : HttpEnv) (state : State)
    (table : ResourceTable) (args : FetchArgs) (data : List (List Nat))
    (rid : Nat) (hrid : args.client_rid = some rid)
    (hget : table.getHttpClient rid = none)
    (_hbad : resolveMethod env args.method = none
      ∨ env.urlParse args.url = none) :
    (op_fetch env state table args data).outcome = .err .badResource := by
  have hres : resolveClient state table args.client_rid = none := by
    simp [resolveClient, hrid, hget]
  have hpre : fetch_precheck env state table args = .err .badResource := by
    unfold fetch_precheck
    rw [hres]
  simp [op_fetch, hpre]

/-- C9 witness: a call with a wrong-typed client handle, an invalid method
token and an unparseable url fails with bad-resource. -/
theorem op_fetch_handle_before_method_url_witness :
    (op_fetch sampleEnv sampleState sampleTable
      ⟨some "FROB", "not a url", [], some 0⟩ []).outcome
      = .err .badResource :=
  op_fetch_handle_before_method_url sampleEnv sampleState sampleTable
    ⟨some "FROB", "not a url", [], some 0⟩ [] 0 rfl (by decide)
    (Or.inl (by decide))

/-- Helper: the response header loop panics with the to_str unwrap message
whenever some header value does not decode. -/
theorem collectHeaders_panic_of_undecodable (env : HttpEnv)
    (l : List (String × List Nat))
    (hbad : ∃ kv ∈ l, env.headerValueToStr kv.2 = none) :
    collectHeaders env l
      = .panic "called Result::unwrap on an Err value: ToStrError" := by
  induction l with
  | nil => rcases hbad with ⟨kv, hmem, _⟩; cases hmem
  | cons head tail ih =>
    obtain ⟨kv, hmem, hkv⟩ := hbad
    rcases List.mem_cons.mp hmem with rfl | hmem
    · match kv, hkv with
      | (k, v), hkv => simp [collectHeaders, hkv]
    · cases hv : env.headerValueToStr head.2 with
      | none =>
        match head, hv with
        | (k, v), hv => simp [collectHeaders, hv]
      | some s =>
        have htail := ih ⟨kv, hmem, hkv⟩
        match head, hv with
        | (k, v), hv => simp [collectHeaders, hv, htail]

/-- C10: for every completed response containing at least one header value
that does not decode, the async fetch task aborts by panic while collecting
the response headers — the outcome is the unwrap panic, which is neither a
successful payload nor a returned network error — and no body resource is
inserted into the table. -/
theorem fetch_task_undecodable_header_panics (env : HttpEnv)
    (table : ResourceTable) (res : Response)
    (hbad : ∃ kv ∈ res.headers, env.headerValueToStr kv.2 = none) :
    fetch_task env table (some res)
      = (.panic "called Result::unwrap on an Err value: ToStrError", table) := by
  have hh := collectHeaders_panic_of_undecodable env res.headers hbad
  simp [fetch_task, hh]

/-- C10 witness: a completed 200 response with one non-decodable header value
panics and leaves the table unchanged. -/
theorem fetch_task_undecodable_header_panics_witness :
    fetch_task sampleEnv sampleTable (some ⟨200, [("y", [130])]⟩)
      = (.panic "called Result::unwrap on an Err value: ToStrError",
         sampleTable) :=
  fetch_task_undecodable_header_panics sampleEnv sampleTable
    ⟨200, [("y", [130])]⟩ ⟨("y", [130]), by decide, by decide⟩

end DenoFetch
